import Mathlib

/-!
Verification of the meteor-react-native DDP client against its specification.

This file gives a shallow embedding of the parts of the client that the
checked properties talk about:

* the outbound message queue and its consumer (`lib/queue.ts`, the Queue
  used by `lib/ddp.ts`: `push` / `process` / `prepend`);
* the DDP protocol state machine of `lib/ddp.ts`: the `message:in` handler,
  `trackSentMessage`, `requeueActiveMessages`, the socket `close` handler;
* the collection-clearing block of the `connected` handler in `Meteor.ts`;
* the observer registry of `Collection.ts` (`getObservers`, the
  per-computation observer callback installed by `Collection.find`);
* `Meteor.subscribe` with its inactive-reuse logic;
* the authentication controller of `user/User.ts` (`_loginWithToken`'s
  `respond` classifier, `handleLogout`, `_loadInitialUser`, the retry
  backoff `_timeout`).

JavaScript `Map`s are modelled as insertion-ordered association lists,
`EJSON.equals` as decidable equality on abstract document/parameter types,
and the minimongo store (out of scope for the spec: a black-box collection
API) as association lists of documents, with `remove({})` emptying a
collection as the spec states.
-/

namespace MeteorRN

/-! ## DDP core: messages, queue, protocol state (`lib/ddp.ts`, `lib/queue.ts`) -/

/-- DDP connection status (`type DDPStatus = 'connected' | 'disconnected'`). -/
inductive Status where
  | connected
  | disconnected
deriving DecidableEq

/-- The `{name, params}` record stored in `DDP.activeSubs`. -/
structure SubInfo (P : Type) where
  name : String
  params : P
deriving DecidableEq

/-- Outbound client-to-server frames produced by `lib/ddp.ts`
(`method`, `sub`, `unsub`, the direct `pong` reply).  Method/sub params are
abstracted by a parameter type `P` with decidable equality standing in for
EJSON values compared by `EJSON.equals`. -/
inductive Msg (P : Type) where
  | method (id : String) (name : String) (params : P)
  | sub (id : String) (name : String) (params : P)
  | unsub (id : String)
  | pong (id : Option String)
deriving DecidableEq

/-- `Map.set`: update the entry in place if the key exists (JS `Map`s keep
insertion order for updated keys), otherwise append. -/
def mapSet {A : Type} (k : String) (v : A) : List (String × A) → List (String × A)
  | [] => [(k, v)]
  | e :: rest => if e.1 = k then (k, v) :: rest else e :: mapSet k v rest

/-- `Map.delete`: remove the entry with the given key. -/
def mapDelete {A : Type} (k : String) : List (String × A) → List (String × A)
  | [] => []
  | e :: rest => if e.1 = k then rest else e :: mapDelete k rest

/-- The mutable protocol state of a `DDP` instance that the queue consumer
and the `message:in` handler touch: `status`, the frames actually written to
the socket (in order), `pendingMethods`, `activeSubs`, `_lastSessionId`.
The queue itself is threaded separately so queue operations can be stated
directly on it. -/
structure Core (P : Type) where
  status : Status
  sent : List (Msg P)
  pendingMethods : List (String × Msg P)
  activeSubs : List (String × SubInfo P)
  lastSessionId : Option String
deriving DecidableEq

/-- `DDP.trackSentMessage`: a sent `method` is recorded in `pendingMethods`,
a sent `sub` in `activeSubs`, a sent `unsub` removes the sub. -/
def trackSentMessage {P : Type} (c : Core P) (m : Msg P) : Core P :=
  match m with
  | .method id _ _ => { c with pendingMethods := mapSet id m c.pendingMethods }
  | .sub id name params => { c with activeSubs := mapSet id ⟨name, params⟩ c.activeSubs }
  | .unsub id => { c with activeSubs := mapDelete id c.activeSubs }
  | .pong _ => c

/-- The consumer passed to `new Queue(...)` in the `DDP` constructor:
if `status === 'connected'`, track the message, send it on the socket and
ack with `true`; otherwise nack with `false` (and change nothing). -/
def messageQueueConsumer {P : Type} (c : Core P) (m : Msg P) : Bool × Core P :=
  if c.status = Status.connected then
    let c1 := trackSentMessage c m
    (true, { c1 with sent := c1.sent ++ [m] })
  else
    (false, c)

/-- `Queue.process`: poll the head, call the consumer; on ack remove the
head and continue, on nack stop.  Returns the updated core together with
the queue that remains. -/
def processQueue {P : Type} : Core P → List (Msg P) → Core P × List (Msg P)
  | c, [] => (c, [])
  | c, m :: rest =>
    let r := messageQueueConsumer c m
    if r.1 then processQueue r.2 rest else (r.2, m :: rest)

/-- `Queue.push`: enqueue at the back, then `process()`. -/
def queuePush {P : Type} (c : Core P) (q : List (Msg P)) (m : Msg P) : Core P × List (Msg P) :=
  processQueue c (q ++ [m])

/-- `Queue.prepend`: insert a batch at the head preserving its order, then
`process()`; an empty batch returns at once without processing. -/
def queuePrepend {P : Type} (c : Core P) (q : List (Msg P)) (ms : List (Msg P)) :
    Core P × List (Msg P) :=
  match ms with
  | [] => (c, q)
  | _ :: _ => processQueue c (ms ++ q)

/-- The test `message.method === 'login'` used by `requeueActiveMessages`
on the stored pending method frames. -/
def isLoginMethod {P : Type} : Msg P → Bool
  | .method _ name _ => name = "login"
  | _ => false

/-- `DDP.requeueActiveMessages`: walk `pendingMethods` (a `Map`, so in
insertion order) splitting login method calls from the rest, then one `sub`
frame per entry of `activeSubs` under its current remote id, concatenated
login-first; the caller prepends the result to the message queue. -/
def requeueActiveMessages {P : Type} (c : Core P) : List (Msg P) :=
  let loginReplay := (c.pendingMethods.map Prod.snd).filter isLoginMethod
  let otherMethodReplay := (c.pendingMethods.map Prod.snd).filter fun m => !(isLoginMethod m)
  let subReplay := c.activeSubs.map fun e => Msg.sub e.1 e.2.name e.2.params
  loginReplay ++ otherMethodReplay ++ subReplay

/-- The `connected` branch of the `message:in` handler: set
`status = 'connected'`, remember the session id, `requeueActiveMessages()`
(whose `Queue.prepend` already processes) and `messageQueue.process()`. -/
def onConnectedMessage {P : Type} (c : Core P) (q : List (Msg P)) (session : String) :
    Core P × List (Msg P) :=
  let c1 := { c with status := Status.connected, lastSessionId := some session }
  let replay := requeueActiveMessages c1
  let r1 := queuePrepend c1 q replay
  processQueue r1.1 r1.2

/-- The socket `close` handler of `lib/ddp.ts`: set `status='disconnected'`
and emit `disconnected`; the message queue is left untouched. -/
def onSocketClose {P : Type} (c : Core P) (q : List (Msg P)) : Core P × List (Msg P) :=
  ({ c with status := Status.disconnected }, q)

/-- Inbound server-to-client frames as dispatched by the `message:in`
handler (payload fields not read by the embedded state transitions are
omitted). -/
inductive InMsg (P : Type) where
  | connected (session : String)
  | ping (id : Option String)
  | ready (subs : List String)
  | nosub (id : String)
  | added (collection : String) (id : String)
  | changed (collection : String) (id : String)
  | removed (collection : String) (id : String)
  | result (id : String)
  | updated (methods : List String)
  | unknown (tag : String)

/-- The `message:in` handler of `lib/ddp.ts`, restricted to its effect on
`Core` and the queue.  Faithful detail: the statement
`this.pendingMethods.delete(message.id)` for a `result` message sits inside
the `if (this.isVerbose)` logging block, so it only runs when `isVerbose`
is true; the `updated` branch deletes unconditionally. -/
def handleMessageIn {P : Type} (isVerbose : Bool) (c : Core P) (q : List (Msg P)) :
    InMsg P → Core P × List (Msg P)
  | .connected session => onConnectedMessage c q session
  | .ping id => ({ c with sent := c.sent ++ [Msg.pong id] }, q)
  | .result id =>
    if isVerbose then ({ c with pendingMethods := mapDelete id c.pendingMethods }, q)
    else (c, q)
  | .updated methods =>
    ({ c with pendingMethods := methods.foldl (fun p i => mapDelete i p) c.pendingMethods }, q)
  | .ready _ => (c, q)
  | .nosub _ => (c, q)
  | .added _ _ => (c, q)
  | .changed _ _ => (c, q)
  | .removed _ _ => (c, q)
  | .unknown _ => (c, q)

/-- Operations the rest of the client performs on the message queue
(`method`/`sub`/`unsub` all `push`; reconnect `prepend`s; `process` is also
triggered directly). -/
inductive QueueOp (P : Type) where
  | push (m : Msg P)
  | prepend (ms : List (Msg P))
  | process

/-- Apply one queue operation. -/
def applyQueueOp {P : Type} (c : Core P) (q : List (Msg P)) : QueueOp P → Core P × List (Msg P)
  | .push m => queuePush c q m
  | .prepend ms => queuePrepend c q ms
  | .process => processQueue c q

/-- Apply a sequence of queue operations. -/
def applyQueueOps {P : Type} (c : Core P) (q : List (Msg P)) :
    List (QueueOp P) → Core P × List (Msg P)
  | [] => (c, q)
  | op :: rest =>
    let r := applyQueueOp c q op
    applyQueueOps r.1 r.2 rest

/-! ## Collection clearing on `connected` (`Meteor.ts`) -/

/-- The clearing block of the `Data.ddp.on('connected')` handler in
`Meteor.ts`: when the session was NOT reused, every collection of the store
whose name is not in `localCollections` is cleared with `remove({})`;
when the session was reused nothing is touched.  The minimongo store is a
black box for the spec; `remove({})` empties the collection.  The store is
modelled as an ordered list of `(name, documents)` pairs over an abstract
document type `D`. -/
def clearStaleCollections {D : Type} (reused : Bool) (locals : List String)
    (db : List (String × List D)) : List (String × List D) :=
  if reused then db
  else db.map fun entry => if locals.contains entry.1 then entry else (entry.1, ([] : List D))

/-! ## Observer registry (`Collection.ts` `getObservers` and the
computation observers installed by `Collection.find`) -/

/-- The three change event types forwarded to observers. -/
inductive EvType where
  | added
  | changed
  | removed
deriving DecidableEq

/-- The `{added?, changed?, removed?}` callback record passed to
`cursor.observe`. -/
structure ObserveCallbacks (Cb : Type) where
  added : Option Cb
  changed : Option Cb
  removed : Option Cb

/-- `callbacks[type]` lookup. -/
def callbackFor {Cb : Type} (cbs : ObserveCallbacks Cb) : EvType → Option Cb
  | .added => cbs.added
  | .changed => cbs.changed
  | .removed => cbs.removed

/-- One entry of the `observers[collection]` list: the registering cursor
(of which only `_selector` matters here; `null`/`undefined` selectors are
`none`) and its callbacks. -/
structure CursorObserver (Sel Cb : Type) where
  selector : Option Sel
  callbacks : ObserveCallbacks Cb

/-- One `{cursor, callback}` entry of an `observersByComp` record. -/
structure CompObserverCallback (Sel Cb : Type) where
  selector : Option Sel
  callback : Cb

/-- The body of the `observers[collection].forEach` loop in `getObservers`:
skip when there is no callback for the event type; notify unconditionally
when `type === 'removed' || !cursor._selector`; otherwise notify only when
the `{$and:[{_id: newDocument._id}, cursor._selector]}` re-lookup matches.
That re-lookup against the current store and document is abstracted as
`matchQ : Sel → Bool`. -/
def cursorObserverSelect {Sel Cb : Type} (ty : EvType) (matchQ : Sel → Bool)
    (o : CursorObserver Sel Cb) : List Cb :=
  match callbackFor o.callbacks ty with
  | none => []
  | some cb =>
    match o.selector with
    | none => [cb]
    | some sel =>
      if ty = EvType.removed then [cb]
      else if matchQ sel then [cb] else []

/-- The body of the `observersByComp` callback loop in `getObservers`:
`findRes` is the selector re-lookup when a selector is present, else
unconditionally truthy. -/
def compObserverSelect {Sel Cb : Type} (matchQ : Sel → Bool)
    (e : CompObserverCallback Sel Cb) : List Cb :=
  match e.selector with
  | none => [e.callback]
  | some sel => if matchQ sel then [e.callback] else []

/-- `getObservers(type, collection, newDocument)`: the cursor observers of
the collection contribute first, then (unless the collection name is an
`Object` prototype property, the `!(collection in {})` guard) the
per-computation observer callbacks. -/
def getObservers {Sel Cb : Type} (ty : EvType) (matchQ : Sel → Bool)
    (cursorObservers : List (CursorObserver Sel Cb)) (collectionIsProtoProp : Bool)
    (compObservers : List (CompObserverCallback Sel Cb)) : List Cb :=
  cursorObservers.flatMap (cursorObserverSelect ty matchQ)
    ++ if collectionIsProtoProp then [] else compObservers.flatMap (compObserverSelect matchQ)

/-- The observer callback `Collection.find` installs for the ambient
computation: `(newVal, old) => { if (old && EJSON.equals(newVal, old))
return; item.computation.invalidate(); }` — returns whether
`invalidate()` is reached.  `EJSON.equals` is decidable equality on the
abstract document type `D`; a missing document is `none`. -/
def compObserverOnChange {D : Type} [DecidableEq D] (newVal oldVal : Option D) : Bool :=
  match oldVal with
  | none => true
  | some o => if newVal = some o then false else true

/-- Effect of processing one `changed` message on one computation observer
entry: the `changed` handler in `Meteor.ts` invokes exactly the callbacks
`getObservers` selected (for a computation entry: `compObserverSelect`),
passing `(newDocument, oldDocument, fields)`; the computation is
invalidated iff its callback was selected and the callback's
`EJSON.equals` guard does not fire. -/
def changedEventInvalidates {Sel D : Type} [DecidableEq D] (matchQ : Sel → Bool)
    (entry : CompObserverCallback Sel Unit) (newDoc oldDoc : Option D) : Bool :=
  match compObserverSelect matchQ entry with
  | [] => false
  | _ :: _ => compObserverOnChange newDoc oldDoc

/-! ## `Meteor.subscribe` and inactive reuse (`Meteor.ts`) -/

/-- Frames `Meteor.subscribe`/`stop` hand to the DDP layer. -/
inductive SubFrame (P : Type) where
  | sub (id : String) (name : String) (params : P)
  | unsub (id : String)
deriving DecidableEq

/-- One record of `Data.subscriptions` (callbacks and `readyDeps`
omitted). -/
structure SubRecord (P : Type) where
  id : String
  subIdRemember : String
  name : String
  params : P
  inactive : Bool
  ready : Bool
deriving DecidableEq

/-- The state `Meteor.subscribe` manipulates: the `Data.subscriptions` map
(insertion ordered), the frames handed to DDP, and the id generators
(`Random.id()` for local ids, `uniqueId()` for remote ids, both modelled as
counters). -/
structure SubsState (P : Type) where
  subscriptions : List (SubRecord P)
  frames : List (SubFrame P)
  nextLocalId : Nat
  nextRemoteId : Nat
deriving DecidableEq

/-- The lookup loop of `Meteor.subscribe`: scan `Data.subscriptions` in
order for a record with `inactive === true`, the same `name` and
`EJSON.equals` params; later matches overwrite earlier ones (`existing`
keeps being reassigned), so the last match wins. -/
def findExistingInactive {P : Type} [DecidableEq P] (subs : List (SubRecord P))
    (name : String) (params : P) : Option String :=
  subs.foldl
    (fun acc sub =>
      if sub.inactive = true ∧ sub.name = name ∧ sub.params = params then some sub.id else acc)
    none

/-- Assignment `Data.subscriptions[id].inactive = b`. -/
def setInactive {P : Type} (subs : List (SubRecord P)) (id : String) (b : Bool) :
    List (SubRecord P) :=
  subs.map fun s => if s.id = id then { s with inactive := b } else s

/-- `ddp.sub(name, params)`: allocate a remote id, push one `sub` frame,
return the id. -/
def ddpSub {P : Type} (st : SubsState P) (name : String) (params : P) : SubsState P × String :=
  let rid := toString st.nextRemoteId
  ({ st with
      frames := st.frames ++ [SubFrame.sub rid name params],
      nextRemoteId := st.nextRemoteId + 1 },
    rid)

/-- `Meteor.subscribe(name, ...params)` restricted to its subscription-map
and frame effects.  When an inactive record with the same `(name, params)`
exists it is reused (`inactive = false`, no new `sub` frame); otherwise a
fresh record is registered and one `sub` frame is sent.  Afterwards, when
no reactive computation is active (`Tracker.active` false), the record is
marked `inactive = true` without being stopped; inside a computation the
`onInvalidate`/`afterFlush` teardown is registered instead (not modelled
here as it only runs on later invalidation). -/
def meteorSubscribe {P : Type} [DecidableEq P] (trackerActive : Bool) (st : SubsState P)
    (name : String) (params : P) : SubsState P × String :=
  match findExistingInactive st.subscriptions name params with
  | some eid =>
    let st1 := { st with subscriptions := setInactive st.subscriptions eid false }
    let st2 :=
      if trackerActive then st1
      else { st1 with subscriptions := setInactive st1.subscriptions eid true }
    (st2, eid)
  | none =>
    let lid := toString st.nextLocalId
    let r1 := ddpSub { st with nextLocalId := st.nextLocalId + 1 } name params
    let record : SubRecord P :=
      { id := lid, subIdRemember := r1.2, name := name, params := params,
        inactive := false, ready := false }
    let st2 := { r1.1 with subscriptions := r1.1.subscriptions ++ [record] }
    let st3 :=
      if trackerActive then st2
      else { st2 with subscriptions := setInactive st2.subscriptions lid true }
    (st3, lid)

/-! ## Authentication controller (`user/User.ts`) -/

/-- A JavaScript error code that passes the `typeof value === 'string' ||
typeof value === 'number'` test of `isResumeRejectionError`; any other
value is represented by `none` at the use sites. -/
inductive ErrVal where
  | num (n : Int)
  | str (s : String)
deriving DecidableEq

/-- `RESUME_REJECTION_ERRORS = [403, 'token-expired', 'not-authorized',
'incorrect-auth-token']`. -/
def RESUME_REJECTION_ERRORS : List ErrVal :=
  [ErrVal.num 403, ErrVal.str "token-expired", ErrVal.str "not-authorized",
    ErrVal.str "incorrect-auth-token"]

/-- `isResumeRejectionError(value)`: false for anything that is not a
string or a number, else membership in `RESUME_REJECTION_ERRORS`. -/
def isResumeRejectionError (v : Option ErrVal) : Bool :=
  match v with
  | none => false
  | some v => decide (v ∈ RESUME_REJECTION_ERRORS)

/-- The fields of a login error object that the `respond` classifier reads:
`error`, `details?.timeToReset` and `timeToReset` (the rate-limit delay
lookup `details?.timeToReset || timeToReset`). -/
structure LoginError where
  error : Option ErrVal
  detailsTimeToReset : Option Nat
  timeToReset : Option Nat
deriving DecidableEq

/-- The fields of a successful `login` result payload that are read:
`token`, `id`, `tokenExpires` (the latter as the already-normalized ISO
string; `_normalizeTokenExpiration`'s `Date` parsing is outside this
model). -/
structure LoginResult where
  token : Option String
  id : Option String
  tokenExpires : Option String
deriving DecidableEq

/-- `missingToken`: `!result || typeof result.token !== 'string' ||
!result.token` (a non-string token is `none`; the empty string is falsy). -/
def missingToken (result : Option LoginResult) : Bool :=
  match result with
  | none => true
  | some r =>
    match r.token with
    | none => true
    | some t => t = ""

/-- The three persisted auth keys (`Meteor.loginToken`,
`Meteor.loginTokenExpires`, `Meteor.userId`) of the external KeyStorage;
writes and removals are best-effort in the source (`.catch` ignored), so
only the resulting values are modelled. -/
structure Storage where
  loginToken : Option String
  loginTokenExpires : Option String
  userId : Option String
deriving DecidableEq

/-- The mutable auth state of the `User` object that the claims mention:
persisted storage, `Data._tokenIdSaved`, `User._userIdSaved`,
`User._tokenExpirationSaved`, the `isLoggedIn` reactive flag, the
`_loggingIn` reactive flag, `_isTokenLogin` and the retry `_timeout`. -/
structure UserState where
  storage : Storage
  tokenIdSaved : Option String
  userIdSaved : Option String
  tokenExpirationSaved : Option String
  isLoggedIn : Bool
  isLoggingIn : Bool
  isTokenLogin : Bool
  timeout : Nat
deriving DecidableEq

/-- `User._timeout`'s initial value (field initializer `_timeout: 50`). -/
def initialUserTimeout : Nat := 50

/-- `User.handleLogout`: remove the three persisted keys, null
`Data._tokenIdSaved`, set `isLoggedIn` false, null the saved user id and
token expiration (reactive and plain copies). -/
def handleLogout (u : UserState) : UserState :=
  { u with
      storage := { loginToken := none, loginTokenExpires := none, userId := none },
      tokenIdSaved := none,
      userIdSaved := none,
      tokenExpirationSaved := none,
      isLoggedIn := false }

/-- The projection of `normalizeLoginFailure`'s payload that the claims
read: the `error` code carried over from the login error, and the
`isLogoutTriggered` flag passed by the caller. -/
structure FailurePayload where
  error : Option ErrVal
  isLogoutTriggered : Bool
deriving DecidableEq

/-- `normalizeLoginFailure(err, isLogoutTriggered, ...)` restricted to the
modelled fields. -/
def normalizeLoginFailurePayload (err : Option LoginError) (isLogoutTriggered : Bool) :
    FailurePayload :=
  { error := match err with
      | none => none
      | some e => e.error,
    isLogoutTriggered := isLogoutTriggered }

/-- The timers `respond` can arm: the rate-limit branch schedules
`_loadInitialUser` after `timeToReset + 100` ms; the retryable branch
schedules `_loginWithToken(retryToken)` after the current `_timeout`. -/
inductive Scheduled where
  | loadInitialUser (delayMs : Nat)
  | retryLoginWithToken (token : String) (delayMs : Nat)
deriving DecidableEq

/-- Everything one run of `respond` produces: the new user state, the
`onLoginFailure` payload if notified, the timers armed, and whether
`onLogout` / `onLogin` were notified. -/
structure RespondOutcome where
  state : UserState
  failure : Option FailurePayload
  scheduled : List Scheduled
  loggedOutNotified : Bool
  loginNotified : Bool
deriving DecidableEq

/-- The success path `User._handleLoginCallback(null, result)`: persist the
token, user id and (already normalized) token expiration, mirror them into
the in-memory copies, set `isLoggedIn`, end logging in, clear
`_isTokenLogin`, notify `onLogin`.  (`respond` only reaches this with a
result carrying a non-empty token, the missing-token case having been
synthesized into an error before classification.) -/
def handleLoginCallbackSuccess (u : UserState) (result : Option LoginResult) : RespondOutcome :=
  match result with
  | none =>
    { state := u, failure := none, scheduled := [], loggedOutNotified := false,
      loginNotified := true }
  | some r =>
    { state :=
        { u with
            storage :=
              { loginToken := r.token, loginTokenExpires := r.tokenExpires, userId := r.id },
            tokenIdSaved := r.token,
            tokenExpirationSaved := r.tokenExpires,
            userIdSaved := r.id,
            isLoggedIn := true,
            isLoggingIn := false,
            isTokenLogin := false },
      failure := none, scheduled := [], loggedOutNotified := false, loginNotified := true }

/-- `loginError?.error` read by the classifier. -/
def loginErrorVal (le : Option LoginError) : Option ErrVal :=
  match le with
  | none => none
  | some e => e.error

/-- The `respond` closure of `User._loginWithToken` (part of
`user/User.ts`): synthesize `{error:'missing-token'}` when the call
succeeded without a usable token, then classify into the rate-limited,
resume-rejection, retryable and success branches exactly as the source
does, producing the state changes, failure payload and timers of the
chosen branch. -/
def loginWithTokenRespond (u : UserState) (token : String) (err : Option LoginError)
    (result : Option LoginResult) : RespondOutcome :=
  let loginError : Option LoginError :=
    if err = none ∧ missingToken result = true then
      some { error := some (ErrVal.str "missing-token"), detailsTimeToReset := none,
             timeToReset := none }
    else err
  if loginErrorVal loginError = some (ErrVal.str "too-many-requests") then
    -- rate-limited: end logging in, schedule `_loadInitialUser` after
    -- `(details?.timeToReset || timeToReset || 0) + 100` ms, surface a
    -- non-logout failure
    let time : Nat :=
      match loginError with
      | none => 0
      | some e => (e.detailsTimeToReset.getD (e.timeToReset.getD 0))
    { state := { u with isTokenLogin := false, isLoggedIn := false, isLoggingIn := false },
      failure := some (normalizeLoginFailurePayload loginError false),
      scheduled := [Scheduled.loadInitialUser (time + 100)],
      loggedOutNotified := false, loginNotified := false }
  else if isResumeRejectionError (loginErrorVal loginError) = true then
    -- resume rejection: full logout side-effects, failure payload with
    -- `isLogoutTriggered = true`, no timer armed
    let u1 := handleLogout { u with isTokenLogin := false, isLoggedIn := false }
    { state := { u1 with isLoggingIn := false },
      failure := some (normalizeLoginFailurePayload loginError true),
      scheduled := [],
      loggedOutNotified := true, loginNotified := false }
  else
    match loginError with
    | some e =>
      -- other errors are retryable: surface a non-logout failure and
      -- schedule `_loginWithToken(retryToken)` after the current
      -- `_timeout`, doubling `_timeout` up to 8000
      { state :=
          { u with
              isTokenLogin := true,
              isLoggedIn := false,
              isLoggingIn := false,
              timeout := min (u.timeout * 2) 8000 },
        failure := some (normalizeLoginFailurePayload (some e) false),
        scheduled := [Scheduled.retryLoginWithToken (u.tokenIdSaved.getD token) u.timeout],
        loggedOutNotified := false, loginNotified := false }
    | none => handleLoginCallbackSuccess u result

/-- `User._loadInitialUser(options)`: reset `_timeout` to 500, seed the
reactive auth state from persisted storage (`_syncReactiveAuthState`), and
return the persisted token that is then (unless `skipLogin`) passed to
`_loginWithToken`. -/
def loadInitialUserSeed (u : UserState) (skipLogin : Bool) : UserState × Option String :=
  let u1 := { u with timeout := 500 }
  let u2 := if skipLogin then u1 else { u1 with isLoggingIn := true }
  let u3 :=
    { u2 with
        userIdSaved := u2.storage.userId,
        tokenExpirationSaved := u2.storage.loginTokenExpires }
  (u3, u2.storage.loginToken)

/-- The trajectory of `User._timeout` across consecutive retryable
login-with-token failures: the field starts at `initialUserTimeout` and
each failure applies `Math.min(timeout * 2, 8000)`. -/
def backoffIter : Nat → Nat
  | 0 => initialUserTimeout
  | n + 1 => min (backoffIter n * 2) 8000

/-! ## Concrete scenario inputs used by closed theorems and witnesses -/

/-- A pending method frame (`Meteor.call('inc', 5)` produced id `"1"`). -/
def pendingIncMethod : Msg String := Msg.method "1" "inc" "5"

/-- A connected DDP core with that single pending method. -/
def pendingIncCore : Core String :=
  { status := Status.connected, sent := [], pendingMethods := [("1", pendingIncMethod)],
    activeSubs := [], lastSessionId := some "s1" }

/-- A disconnected DDP core with nothing in flight. -/
def idleDisconnectedCore : Core String :=
  { status := Status.disconnected, sent := [], pendingMethods := [], activeSubs := [],
    lastSessionId := none }

/-- A user state holding a persisted resume token, mid token-login. -/
def tokenUserState : UserState :=
  { storage := { loginToken := some "tok1", loginTokenExpires := none, userId := some "u1" },
    tokenIdSaved := some "tok1", userIdSaved := some "u1", tokenExpirationSaved := none,
    isLoggedIn := false, isLoggingIn := true, isTokenLogin := true,
    timeout := initialUserTimeout }

/-!
# Theorems

Helper lemmas come first, then one theorem per checked claim (with a
witness or counterexample where called for).
-/

/-- `trackSentMessage` never touches the frames already sent. -/
lemma trackSentMessage_sent {P : Type} (c : Core P) (m : Msg P) :
    (trackSentMessage c m).sent = c.sent := by
  cases m <;> rfl

/-- `trackSentMessage` never changes the connection status. -/
lemma trackSentMessage_status {P : Type} (c : Core P) (m : Msg P) :
    (trackSentMessage c m).status = c.status := by
  cases m <;> rfl

/-- While connected the consumer acks every element. -/
lemma messageQueueConsumer_ack {P : Type} (c : Core P) (m : Msg P)
    (h : c.status = Status.connected) :
    (messageQueueConsumer c m).1 = true := by
  simp [messageQueueConsumer, h]

/-- While connected the consumer appends the element to the sent frames. -/
lemma messageQueueConsumer_sent {P : Type} (c : Core P) (m : Msg P)
    (h : c.status = Status.connected) :
    ((messageQueueConsumer c m).2).sent = c.sent ++ [m] := by
  simp [messageQueueConsumer, h, trackSentMessage_sent]

/-- The consumer never changes the connection status. -/
lemma messageQueueConsumer_status {P : Type} (c : Core P) (m : Msg P)
    (h : c.status = Status.connected) :
    ((messageQueueConsumer c m).2).status = c.status := by
  simp [messageQueueConsumer, h, trackSentMessage_status]

/-- Unfolding of `Queue.process` on a nonempty queue. -/
lemma processQueue_cons {P : Type} (c : Core P) (m : Msg P) (rest : List (Msg P)) :
    processQueue c (m :: rest)
      = if (messageQueueConsumer c m).1 then processQueue (messageQueueConsumer c m).2 rest
        else ((messageQueueConsumer c m).2, m :: rest) := rfl

/-- While connected, `Queue.process` drains the whole queue and writes its
elements to the socket in order, after everything already sent. -/
lemma processQueue_connected {P : Type} (q : List (Msg P)) :
    ∀ c : Core P, c.status = Status.connected →
      (processQueue c q).2 = []
        ∧ (processQueue c q).1.sent = c.sent ++ q
        ∧ (processQueue c q).1.status = c.status := by
  induction q with
  | nil => intro c h; simp [processQueue]
  | cons m rest ih =>
    intro c h
    have hstat : ((messageQueueConsumer c m).2).status = Status.connected := by
      rw [messageQueueConsumer_status c m h]; exact h
    obtain ⟨h1, h2, h3⟩ := ih _ hstat
    rw [processQueue_cons, messageQueueConsumer_ack c m h, if_pos rfl]
    refine ⟨h1, ?_, ?_⟩
    · rw [h2, messageQueueConsumer_sent c m h]
      simp
    · rw [h3, messageQueueConsumer_status c m h, h]

/-- While not connected, `Queue.process` is a no-op: the consumer nacks the
head and nothing changes. -/
lemma processQueue_not_connected {P : Type} (c : Core P) (q : List (Msg P))
    (h : c.status ≠ Status.connected) :
    processQueue c q = (c, q) := by
  cases q with
  | nil => rfl
  | cons m rest => simp [processQueue, messageQueueConsumer, h]

/-- Any single queue operation performed while not connected leaves the
core untouched and only ever extends the queue around the old elements. -/
lemma applyQueueOp_not_connected {P : Type} (c : Core P) (q : List (Msg P)) (op : QueueOp P)
    (h : c.status ≠ Status.connected) :
    (applyQueueOp c q op).1 = c
      ∧ ∃ pre post, (applyQueueOp c q op).2 = pre ++ q ++ post := by
  cases op with
  | push m =>
    rw [applyQueueOp, queuePush, processQueue_not_connected _ _ h]
    exact ⟨rfl, [], [m], by simp⟩
  | prepend ms =>
    cases ms with
    | nil => exact ⟨rfl, [], [], by simp [applyQueueOp, queuePrepend]⟩
    | cons m rest =>
      rw [applyQueueOp, queuePrepend, processQueue_not_connected _ _ h]
      exact ⟨rfl, m :: rest, [], by simp⟩
  | process =>
    rw [applyQueueOp, processQueue_not_connected _ _ h]
    exact ⟨rfl, [], [], by simp⟩

/-- Sequences of queue operations performed while not connected leave the
core untouched and keep the old queue contiguous and in order. -/
lemma applyQueueOps_not_connected {P : Type} (ops : List (QueueOp P)) :
    ∀ (c : Core P) (q : List (Msg P)), c.status ≠ Status.connected →
      (applyQueueOps c q ops).1 = c
        ∧ ∃ pre post, (applyQueueOps c q ops).2 = pre ++ q ++ post := by
  induction ops with
  | nil => intro c q _; exact ⟨rfl, [], [], by simp [applyQueueOps]⟩
  | cons op rest ih =>
    intro c q h
    obtain ⟨h1, pre1, post1, h2⟩ := applyQueueOp_not_connected c q op h
    have hstat : (applyQueueOp c q op).1.status ≠ Status.connected := by
      rw [h1]; exact h
    obtain ⟨g1, pre2, post2, g2⟩ := ih (applyQueueOp c q op).1 (applyQueueOp c q op).2 hstat
    refine ⟨?_, pre2 ++ pre1, post1 ++ post2, ?_⟩
    · show (applyQueueOps (applyQueueOp c q op).1 (applyQueueOp c q op).2 rest).1 = c
      rw [g1, h1]
    · show (applyQueueOps (applyQueueOp c q op).1 (applyQueueOp c q op).2 rest).2 = _
      rw [g2, h2]
      simp [List.append_assoc]

/-- C1: on receipt of a `connected` message the queue is not cleared; the
handler prepends, ahead of the still-queued frames, first the pending
`login` method calls, then the other pending method calls in their stored
order, then one `sub` frame per active subscription under its current
remote id — and the socket output after the handler shows exactly this
order, with the ordinary queue drained last.  (The socket `close` handler
on disconnect leaves the queue untouched as well.) -/
theorem connected_replay_order {P : Type} (c : Core P) (q : List (Msg P)) (s : String) :
    (onSocketClose c q).2 = q
    ∧ (onConnectedMessage c q s).2 = []
    ∧ (onConnectedMessage c q s).1.sent
        = c.sent
          ++ (c.pendingMethods.map Prod.snd).filter isLoginMethod
          ++ (c.pendingMethods.map Prod.snd).filter (fun m => !(isLoginMethod m))
          ++ c.activeSubs.map (fun e => Msg.sub e.1 e.2.name e.2.params)
          ++ q := by
  refine ⟨rfl, ?_⟩
  have hreq : requeueActiveMessages
      ({ c with status := Status.connected, lastSessionId := some s } : Core P)
      = (c.pendingMethods.map Prod.snd).filter isLoginMethod
        ++ (c.pendingMethods.map Prod.snd).filter (fun m => !(isLoginMethod m))
        ++ c.activeSubs.map (fun e => Msg.sub e.1 e.2.name e.2.params) := rfl
  have hstat : ({ c with status := Status.connected, lastSessionId := some s } : Core P).status
      = Status.connected := rfl
  have hsent : ({ c with status := Status.connected, lastSessionId := some s } : Core P).sent
      = c.sent := rfl
  rw [onConnectedMessage]
  cases hr : requeueActiveMessages
      ({ c with status := Status.connected, lastSessionId := some s } : Core P) with
  | nil =>
    rw [hr] at hreq
    obtain ⟨hAB, hC⟩ := List.append_eq_nil.mp hreq.symm
    obtain ⟨hA, hB⟩ := List.append_eq_nil.mp hAB
    obtain ⟨h1, h2, _⟩ := processQueue_connected q _ hstat
    rw [queuePrepend]
    exact ⟨h1, by rw [h2, hsent, hA, hB, hC]; simp⟩
  | cons m rest =>
    obtain ⟨h1, h2, h3⟩ :=
      processQueue_connected ((m :: rest) ++ q) _ hstat
    rw [queuePrepend, h1]
    constructor
    · rfl
    · show (processQueue _ ([] : List (Msg P))).1.sent = _
      have : processQueue (processQueue
          ({ c with status := Status.connected, lastSessionId := some s } : Core P)
          ((m :: rest) ++ q)).1 ([] : List (Msg P))
          = ((processQueue _ ((m :: rest) ++ q)).1, []) := rfl
      rw [this, h2, hsent, ← hr, hreq]
      simp [List.append_assoc]

/-- C2 (code bug): with the default `isVerbose = false`, processing the
server `result` message for a pending method does NOT remove its
pending-method record — the `pendingMethods.delete` sits inside the
verbose-logging block and only runs when `isVerbose = true` — so a
reconnect arriving after the `result` (and before `updated`) replays the
already-answered method frame; only an `updated` message clears the record
in the default configuration. -/
theorem result_leaves_pending_method_when_not_verbose :
    (handleMessageIn false pendingIncCore [] (InMsg.result "1")).1.pendingMethods
        = [("1", pendingIncMethod)]
    ∧ (handleMessageIn true pendingIncCore [] (InMsg.result "1")).1.pendingMethods = []
    ∧ (handleMessageIn false pendingIncCore [] (InMsg.updated ["1"])).1.pendingMethods = []
    ∧ pendingIncMethod ∈
        (handleMessageIn false
          (handleMessageIn false pendingIncCore [] (InMsg.result "1")).1
          [] (InMsg.connected "s2")).1.sent := by
  decide

/-- C4: while the DDP status is not `'connected'` the queue consumer
returns `false` for every element, no queue operation changes the core (in
particular nothing is written to the socket from the queue), and any
sequence of queue operations keeps the already-enqueued elements
contiguous, in FIFO order, with the queue length non-decreasing. -/
theorem queue_silent_while_disconnected {P : Type} (c : Core P) (q : List (Msg P))
    (ops : List (QueueOp P)) (h : c.status ≠ Status.connected) :
    (∀ m : Msg P, (messageQueueConsumer c m).1 = false)
    ∧ (applyQueueOps c q ops).1 = c
    ∧ ∃ pre post, (applyQueueOps c q ops).2 = pre ++ q ++ post
        ∧ q.length ≤ ((applyQueueOps c q ops).2).length := by
  obtain ⟨h1, pre, post, h2⟩ := applyQueueOps_not_connected ops c q h
  refine ⟨fun m => by simp [messageQueueConsumer, h], h1, pre, post, h2, ?_⟩
  rw [h2]
  simp only [List.length_append]
  omega

/-- Witness for C4 at a concrete disconnected core and nonempty queue. -/
theorem queue_silent_while_disconnected_witness :
    (idleDisconnectedCore.status ≠ Status.connected)
    ∧ ((∀ m : Msg String, (messageQueueConsumer idleDisconnectedCore m).1 = false)
      ∧ (applyQueueOps idleDisconnectedCore [Msg.unsub "7"]
          [QueueOp.push (Msg.unsub "9"), QueueOp.process]).1 = idleDisconnectedCore
      ∧ ∃ pre post,
          (applyQueueOps idleDisconnectedCore [Msg.unsub "7"]
            [QueueOp.push (Msg.unsub "9"), QueueOp.process]).2 = pre ++ [Msg.unsub "7"] ++ post
          ∧ ([Msg.unsub "7"] : List (Msg String)).length ≤
              ((applyQueueOps idleDisconnectedCore [Msg.unsub "7"]
                [QueueOp.push (Msg.unsub "9"), QueueOp.process]).2).length) :=
  ⟨by decide,
    queue_silent_while_disconnected idleDisconnectedCore [Msg.unsub "7"]
      [QueueOp.push (Msg.unsub "9"), QueueOp.process] (by decide)⟩

/-- C3: on a `connected` event with `sessionReused = false`, every
non-local collection of the store is emptied while the local ones keep
their documents; with `sessionReused = true` no collection is touched at
all. -/
theorem connected_clears_only_nonlocal {D : Type} (locals : List String)
    (db : List (String × List D)) :
    clearStaleCollections true locals db = db
    ∧ (∀ nm docs, (nm, docs) ∈ db → locals.contains nm = true →
        (nm, docs) ∈ clearStaleCollections false locals db)
    ∧ (∀ nm docs, (nm, docs) ∈ db → locals.contains nm = false →
        (nm, ([] : List D)) ∈ clearStaleCollections false locals db) := by
  refine ⟨by simp [clearStaleCollections], ?_, ?_⟩
  · intro nm docs hmem hloc
    have := List.mem_map_of_mem
      (f := fun entry : String × List D =>
        if locals.contains entry.1 then entry else (entry.1, ([] : List D))) hmem
    simp only [hloc, if_pos] at this
    simpa [clearStaleCollections] using this
  · intro nm docs hmem hloc
    have := List.mem_map_of_mem
      (f := fun entry : String × List D =>
        if locals.contains entry.1 then entry else (entry.1, ([] : List D))) hmem
    simp only [hloc] at this
    simpa [clearStaleCollections] using this

/-- Witness for C3: a store with one local and one server collection. -/
theorem connected_clears_only_nonlocal_witness :
    clearStaleCollections true ["loc1"] [("loc1", [1]), ("things", [2])]
        = [("loc1", [1]), ("things", [2])]
    ∧ ("loc1", [1]) ∈ clearStaleCollections false ["loc1"] [("loc1", [1]), ("things", [2])]
    ∧ ("things", ([] : List Nat)) ∈
        clearStaleCollections false ["loc1"] [("loc1", [1]), ("things", [2])] :=
  ⟨(connected_clears_only_nonlocal ["loc1"] [("loc1", [1]), ("things", [2])]).1,
   (connected_clears_only_nonlocal ["loc1"] [("loc1", [1]), ("things", [2])]).2.1
     "loc1" [1] (by decide) (by decide),
   (connected_clears_only_nonlocal ["loc1"] [("loc1", [1]), ("things", [2])]).2.2
     "things" [2] (by decide) (by decide)⟩

/-- C6: a login-with-token response whose error code is one of
`RESUME_REJECTION_ERRORS` (403, `'token-expired'`, `'not-authorized'`,
`'incorrect-auth-token'`) clears all three persisted auth keys, performs
the full logout side-effects (in-memory ids nulled, `isLoggedIn` false,
`onLogout` notified), surfaces `onLoginFailure` with
`isLogoutTriggered = true`, and arms no retry timer. -/
theorem resume_rejection_triggers_logout (u : UserState) (token : String) (e : LoginError)
    (result : Option LoginResult) (v : ErrVal) (hv : e.error = some v)
    (hmem : v ∈ RESUME_REJECTION_ERRORS) :
    (loginWithTokenRespond u token (some e) result).state.storage
        = { loginToken := none, loginTokenExpires := none, userId := none }
    ∧ (loginWithTokenRespond u token (some e) result).state.tokenIdSaved = none
    ∧ (loginWithTokenRespond u token (some e) result).state.userIdSaved = none
    ∧ (loginWithTokenRespond u token (some e) result).state.isLoggedIn = false
    ∧ (loginWithTokenRespond u token (some e) result).loggedOutNotified = true
    ∧ (loginWithTokenRespond u token (some e) result).failure
        = some { error := some v, isLogoutTriggered := true }
    ∧ (loginWithTokenRespond u token (some e) result).scheduled = [] := by
  have hnotrate : ¬ (loginErrorVal (some e) = some (ErrVal.str "too-many-requests")) := by
    show ¬ (e.error = some (ErrVal.str "too-many-requests"))
    rw [hv]
    intro hcontra
    simp [RESUME_REJECTION_ERRORS] at hmem
    rcases hmem with rfl | rfl | rfl | rfl <;> simp at hcontra
  have hrr : isResumeRejectionError (loginErrorVal (some e)) = true := by
    show isResumeRejectionError e.error = true
    rw [hv]
    simpa [isResumeRejectionError] using hmem
  unfold loginWithTokenRespond
  simp only [reduceCtorEq, false_and, if_false, if_neg hnotrate, if_pos hrr]
  simp [handleLogout, normalizeLoginFailurePayload, hv]

/-- Witness for C6 at a concrete `'token-expired'` response. -/
theorem resume_rejection_triggers_logout_witness :
    (loginWithTokenRespond tokenUserState "tok1"
        (some { error := some (ErrVal.str "token-expired"), detailsTimeToReset := none,
                timeToReset := none }) none).state.storage
        = { loginToken := none, loginTokenExpires := none, userId := none }
    ∧ (loginWithTokenRespond tokenUserState "tok1"
        (some { error := some (ErrVal.str "token-expired"), detailsTimeToReset := none,
                timeToReset := none }) none).state.tokenIdSaved = none
    ∧ (loginWithTokenRespond tokenUserState "tok1"
        (some { error := some (ErrVal.str "token-expired"), detailsTimeToReset := none,
                timeToReset := none }) none).state.userIdSaved = none
    ∧ (loginWithTokenRespond tokenUserState "tok1"
        (some { error := some (ErrVal.str "token-expired"), detailsTimeToReset := none,
                timeToReset := none }) none).state.isLoggedIn = false
    ∧ (loginWithTokenRespond tokenUserState "tok1"
        (some { error := some (ErrVal.str "token-expired"), detailsTimeToReset := none,
                timeToReset := none }) none).loggedOutNotified = true
    ∧ (loginWithTokenRespond tokenUserState "tok1"
        (some { error := some (ErrVal.str "token-expired"), detailsTimeToReset := none,
                timeToReset := none }) none).failure
        = some { error := some (ErrVal.str "token-expired"), isLogoutTriggered := true }
    ∧ (loginWithTokenRespond tokenUserState "tok1"
        (some { error := some (ErrVal.str "token-expired"), detailsTimeToReset := none,
                timeToReset := none }) none).scheduled = [] :=
  resume_rejection_triggers_logout tokenUserState "tok1"
    { error := some (ErrVal.str "token-expired"), detailsTimeToReset := none,
      timeToReset := none }
    none (ErrVal.str "token-expired") (by decide) (by decide)

/-- C5 counterexample: a login method call that completes without an error
but with a token-less result payload does NOT behave as a resume rejection:
the synthesized error code is `'missing-token'`, which is not in
`RESUME_REJECTION_ERRORS`, so the persisted token survives, the failure is
surfaced with `isLogoutTriggered = false`, no logout happens, and a retry
IS scheduled. -/
theorem missing_token_claim_counterexample :
    (loginWithTokenRespond tokenUserState "tok1" none
        (some { token := none, id := none, tokenExpires := none })).state.storage.loginToken
        = some "tok1"
    ∧ (loginWithTokenRespond tokenUserState "tok1" none
        (some { token := none, id := none, tokenExpires := none })).failure
        = some { error := some (ErrVal.str "missing-token"), isLogoutTriggered := false }
    ∧ (loginWithTokenRespond tokenUserState "tok1" none
        (some { token := none, id := none, tokenExpires := none })).scheduled
        = [Scheduled.retryLoginWithToken "tok1" 50]
    ∧ (loginWithTokenRespond tokenUserState "tok1" none
        (some { token := none, id := none, tokenExpires := none })).loggedOutNotified
        = false := by
  decide

/-- C5 as amended: for every login-with-token call that completes without
an error but whose result payload has no (non-empty string) token, the
client synthesizes `{error: 'missing-token'}`; since that code is not in
`RESUME_REJECTION_ERRORS` the response is treated as retryable: the
persisted auth keys are untouched, `onLoginFailure` carries
`isLogoutTriggered = false`, no logout side-effects run, and a retry of
`_loginWithToken` is scheduled after the current `_timeout` (which is then
doubled, capped at 8000). -/
theorem missing_token_is_retried (u : UserState) (token : String) (result : Option LoginResult)
    (hmiss : missingToken result = true) :
    (loginWithTokenRespond u token none result).state.storage = u.storage
    ∧ (loginWithTokenRespond u token none result).failure
        = some { error := some (ErrVal.str "missing-token"), isLogoutTriggered := false }
    ∧ (loginWithTokenRespond u token none result).scheduled
        = [Scheduled.retryLoginWithToken (u.tokenIdSaved.getD token) u.timeout]
    ∧ (loginWithTokenRespond u token none result).state.timeout = min (u.timeout * 2) 8000
    ∧ (loginWithTokenRespond u token none result).loggedOutNotified = false := by
  have hA : ¬ (loginErrorVal
      (some { error := some (ErrVal.str "missing-token"), detailsTimeToReset := none,
              timeToReset := none })
      = some (ErrVal.str "too-many-requests")) := by decide
  have hB : ¬ (isResumeRejectionError (loginErrorVal
      (some { error := some (ErrVal.str "missing-token"), detailsTimeToReset := none,
              timeToReset := none })) = true) := by decide
  unfold loginWithTokenRespond
  rw [if_pos (show (none : Option LoginError) = none ∧ missingToken result = true
      from ⟨rfl, hmiss⟩)]
  rw [if_neg hA, if_neg hB]
  exact ⟨rfl, rfl, rfl, rfl, rfl⟩

/-- Witness for C5's amended statement at a token-less payload. -/
theorem missing_token_is_retried_witness :
    missingToken (some { token := none, id := none, tokenExpires := none }) = true
    ∧ (loginWithTokenRespond tokenUserState "tok1" none
        (some { token := none, id := none, tokenExpires := none })).state.storage
        = tokenUserState.storage :=
  ⟨by decide,
    (missing_token_is_retried tokenUserState "tok1"
      (some { token := none, id := none, tokenExpires := none }) (by decide)).1⟩

/-- Arithmetic step of the capped doubling. -/
lemma min_double_cap (a : Nat) : min (min a 8000 * 2) 8000 = min (a * 2) 8000 := by
  rcases Nat.le_total a 8000 with hle | hge
  · rw [Nat.min_eq_left hle]
  · rw [Nat.min_eq_right hge]
    have h1 : (8000 : Nat) ≤ 8000 * 2 := by omega
    have h2 : (8000 : Nat) ≤ a * 2 := by omega
    rw [Nat.min_eq_right h1, Nat.min_eq_right h2]

/-- Closed form of the retry backoff trajectory. -/
lemma backoffIter_closed : ∀ n, backoffIter n = min (initialUserTimeout * 2 ^ n) 8000 := by
  intro n
  induction n with
  | zero => decide
  | succ k ih =>
    simp only [backoffIter]
    rw [ih, pow_succ, ← Nat.mul_assoc]
    exact min_double_cap _

/-- The backoff never exceeds the 8000 ms cap. -/
lemma backoffIter_le : ∀ n, backoffIter n ≤ 8000 := by
  intro n
  cases n with
  | zero => decide
  | succ k => simp only [backoffIter]; exact Nat.min_le_right _ _

/-- C7: for retryable (non-rate-limited, non-resume-rejection)
login-with-token failures, the retry is scheduled after the current
`_timeout` and `_timeout` is then set to `min(timeout * 2, 8000)`; the
trajectory from the initial 50 ms is `min(50 * 2^n, 8000)` — it doubles on
each failure, never exceeds 8000 ms, and every `_loadInitialUser` call
resets `_timeout` to 500 ms. -/
theorem login_retry_backoff (u : UserState) (token : String) (e : LoginError)
    (result : Option LoginResult) (skip : Bool)
    (hrate : e.error ≠ some (ErrVal.str "too-many-requests"))
    (hrej : isResumeRejectionError e.error = false) :
    (loginWithTokenRespond u token (some e) result).scheduled
        = [Scheduled.retryLoginWithToken (u.tokenIdSaved.getD token) u.timeout]
    ∧ (loginWithTokenRespond u token (some e) result).state.timeout = min (u.timeout * 2) 8000
    ∧ backoffIter 0 = initialUserTimeout
    ∧ (∀ n, backoffIter (n + 1) = min (backoffIter n * 2) 8000)
    ∧ (∀ n, backoffIter n = min (initialUserTimeout * 2 ^ n) 8000)
    ∧ (∀ n, backoffIter n ≤ 8000)
    ∧ (loadInitialUserSeed u skip).1.timeout = 500 := by
  have hnotrate : ¬ (loginErrorVal (some e) = some (ErrVal.str "too-many-requests")) := hrate
  have hnotrej : ¬ (isResumeRejectionError (loginErrorVal (some e)) = true) := by
    show ¬ (isResumeRejectionError e.error = true)
    rw [hrej]
    simp
  unfold loginWithTokenRespond
  simp only [reduceCtorEq, false_and, if_false, if_neg hnotrate, if_neg hnotrej]
  refine ⟨?_, ?_, ?_, ?_, backoffIter_closed, backoffIter_le, ?_⟩
  · trivial
  · trivial
  · trivial
  · intro n; simp [backoffIter]
  · cases skip <;> rfl

/-- Witness for C7 at a concrete transient failure. -/
theorem login_retry_backoff_witness :
    (({ error := some (ErrVal.str "offline"), detailsTimeToReset := none,
        timeToReset := none } : LoginError).error ≠ some (ErrVal.str "too-many-requests"))
    ∧ isResumeRejectionError
        ({ error := some (ErrVal.str "offline"), detailsTimeToReset := none,
           timeToReset := none } : LoginError).error = false
    ∧ (loginWithTokenRespond tokenUserState "tok1"
        (some { error := some (ErrVal.str "offline"), detailsTimeToReset := none,
                timeToReset := none }) none).scheduled
        = [Scheduled.retryLoginWithToken "tok1" 50] :=
  ⟨by decide, by decide,
    by
      have h := (login_retry_backoff tokenUserState "tok1"
        { error := some (ErrVal.str "offline"), detailsTimeToReset := none,
          timeToReset := none }
        none true (by decide) (by decide)).1
      simpa [tokenUserState, initialUserTimeout] using h⟩

/-- Membership characterization of one cursor observer's contribution to
`getObservers`. -/
lemma mem_cursorObserverSelect {Sel Cb : Type} (ty : EvType) (matchQ : Sel → Bool)
    (o : CursorObserver Sel Cb) (cb : Cb) :
    cb ∈ cursorObserverSelect ty matchQ o
      ↔ callbackFor o.callbacks ty = some cb
        ∧ (ty = EvType.removed ∨ o.selector = none
            ∨ ∃ sel, o.selector = some sel ∧ matchQ sel = true) := by
  unfold cursorObserverSelect
  cases hcb : callbackFor o.callbacks ty with
  | none => simp
  | some cb0 =>
    cases hsel : o.selector with
    | none =>
      simp only [List.mem_singleton, Option.some.injEq]
      constructor
      · rintro rfl
        exact ⟨rfl, by simp⟩
      · rintro ⟨h, _⟩
        exact h.symm
    | some sel =>
      by_cases hty : ty = EvType.removed
      · simp only [if_pos hty, List.mem_singleton, Option.some.injEq]
        constructor
        · rintro rfl
          exact ⟨rfl, by simp [hty]⟩
        · rintro ⟨h, _⟩
          exact h.symm
      · by_cases hm : matchQ sel = true
        · simp only [if_neg hty, if_pos hm, List.mem_singleton, Option.some.injEq]
          constructor
          · rintro rfl
            exact ⟨rfl, by simp [hm]⟩
          · rintro ⟨h, _⟩
            exact h.symm
        · simp only [if_neg hty, if_neg hm, List.not_mem_nil, false_iff, not_and]
          intro hcb2 hcase
          rcases hcase with h1 | h1 | ⟨s, hs, hmatch⟩
          · exact hty h1
          · exact Option.some_ne_none sel h1
          · injection hs with hss
            subst hss
            exact hm hmatch

/-- C8: for every `added` or `changed` event a cursor observer's callback
is returned by `getObservers` iff the cursor's selector is absent or the
`{$and:[{_id}, selector]}` re-lookup against the post-change store matches;
for `removed` events the dedicated callback is returned regardless of the
selector.  (Stated over the cursor-observer registry; the computation
observers contribute separately.) -/
theorem cursor_observer_selector_rule {Sel Cb : Type} (ty : EvType) (matchQ : Sel → Bool)
    (obs : List (CursorObserver Sel Cb)) (proto : Bool) (cb : Cb) :
    cb ∈ getObservers ty matchQ obs proto ([] : List (CompObserverCallback Sel Cb))
      ↔ ∃ o ∈ obs, callbackFor o.callbacks ty = some cb
          ∧ (ty = EvType.removed ∨ o.selector = none
              ∨ ∃ sel, o.selector = some sel ∧ matchQ sel = true) := by
  unfold getObservers
  have hcomp : (if proto then ([] : List Cb)
      else ([] : List (CompObserverCallback Sel Cb)).flatMap (compObserverSelect matchQ))
      = [] := by
    cases proto <;> simp
  rw [hcomp]
  simp only [List.append_nil, List.mem_flatMap]
  constructor
  · rintro ⟨o, ho, hmem⟩
    exact ⟨o, ho, (mem_cursorObserverSelect ty matchQ o cb).mp hmem⟩
  · rintro ⟨o, ho, h⟩
    exact ⟨o, ho, (mem_cursorObserverSelect ty matchQ o cb).mpr h⟩

/-- C9: processing a `changed` message whose post-change document is
`EJSON.equals`-identical to the pre-change document never invalidates a
computation observing the query: even when the computation's observer
callback is selected, its `EJSON.equals` short-circuit returns before
`invalidate()`. -/
theorem changed_identical_doc_no_invalidate {Sel D : Type} [DecidableEq D]
    (matchQ : Sel → Bool) (entry : CompObserverCallback Sel Unit) (d : D) :
    changedEventInvalidates matchQ entry (some d) (some d) = false := by
  unfold changedEventInvalidates
  cases compObserverSelect matchQ entry <;> simp [compObserverOnChange]

/-- `setInactive` distributes over list append. -/
lemma setInactive_append {P : Type} (l1 l2 : List (SubRecord P)) (id : String) (b : Bool) :
    setInactive (l1 ++ l2) id b = setInactive l1 id b ++ setInactive l2 id b := by
  simp [setInactive]

/-- `setInactive` with an id that occurs nowhere is the identity. -/
lemma setInactive_of_not_mem {P : Type} (l : List (SubRecord P)) (id : String) (b : Bool)
    (h : ∀ s ∈ l, s.id ≠ id) :
    setInactive l id b = l := by
  induction l with
  | nil => rfl
  | cons s rest ih =>
    have hs : s.id ≠ id := h s (by simp)
    have hrest : ∀ x ∈ rest, x.id ≠ id := fun x hx => h x (by simp [hx])
    simp only [setInactive, List.map_cons, if_neg hs]
    have := ih hrest
    simp only [setInactive] at this
    rw [this]

/-- `setInactive` on a singleton with its own id. -/
lemma setInactive_singleton_self {P : Type} (r : SubRecord P) (b : Bool) :
    setInactive [r] r.id b = [{ r with inactive := b }] := by
  simp [setInactive]

/-- The `Meteor.subscribe` lookup loop keeps the last match, so appending a
matching record makes it the result. -/
lemma findExistingInactive_append_single {P : Type} [DecidableEq P]
    (l : List (SubRecord P)) (r : SubRecord P) (name : String) (params : P) :
    findExistingInactive (l ++ [r]) name params
      = if r.inactive = true ∧ r.name = name ∧ r.params = params then some r.id
        else findExistingInactive l name params := by
  unfold findExistingInactive
  rw [List.foldl_append]
  rfl

/-- C10: a `subscribe()` call made outside any reactive computation, with
no matching inactive record present, registers a new record that is
immediately marked `inactive = true` without being stopped (the record
stays in the map and exactly one `sub` frame — no `unsub` — is produced);
a later `subscribe()` with the same name and `EJSON`-equal params then
reuses that record: it returns the same subscription id and produces no
second `sub` frame, the reuse branch reactivating the record
(`inactive = false`; a second non-reactive call re-marks it inactive at
the end, per the first half, still without any frame). -/
theorem subscribe_nonreactive_inactive_reuse {P : Type} [DecidableEq P] (st : SubsState P)
    (name : String) (params : P)
    (h1 : findExistingInactive st.subscriptions name params = none)
    (h2 : ∀ r ∈ st.subscriptions, r.id ≠ toString st.nextLocalId) :
    (meteorSubscribe false st name params).2 = toString st.nextLocalId
    ∧ (meteorSubscribe false st name params).1.subscriptions
        = st.subscriptions
          ++ [{ id := toString st.nextLocalId, subIdRemember := toString st.nextRemoteId,
                name := name, params := params, inactive := true, ready := false }]
    ∧ (meteorSubscribe false st name params).1.frames
        = st.frames ++ [SubFrame.sub (toString st.nextRemoteId) name params]
    ∧ (meteorSubscribe true (meteorSubscribe false st name params).1 name params).2
        = toString st.nextLocalId
    ∧ (meteorSubscribe true (meteorSubscribe false st name params).1 name params).1.subscriptions
        = st.subscriptions
          ++ [{ id := toString st.nextLocalId, subIdRemember := toString st.nextRemoteId,
                name := name, params := params, inactive := false, ready := false }]
    ∧ (meteorSubscribe true (meteorSubscribe false st name params).1 name params).1.frames
        = (meteorSubscribe false st name params).1.frames
    ∧ (meteorSubscribe false (meteorSubscribe false st name params).1 name params).2
        = toString st.nextLocalId
    ∧ (meteorSubscribe false (meteorSubscribe false st name params).1 name params).1.frames
        = (meteorSubscribe false st name params).1.frames := by
  have hsetA : setInactive
      (st.subscriptions
        ++ [{ id := toString st.nextLocalId, subIdRemember := toString st.nextRemoteId,
              name := name, params := params, inactive := false, ready := false }])
      (toString st.nextLocalId) true
      = st.subscriptions
        ++ [{ id := toString st.nextLocalId, subIdRemember := toString st.nextRemoteId,
              name := name, params := params, inactive := true, ready := false }] := by
    rw [setInactive_append, setInactive_of_not_mem _ _ _ h2,
      setInactive_singleton_self
        { id := toString st.nextLocalId, subIdRemember := toString st.nextRemoteId,
          name := name, params := params, inactive := false, ready := false }]
  have hfirst : meteorSubscribe false st name params
      = ({ subscriptions :=
            st.subscriptions
              ++ [{ id := toString st.nextLocalId, subIdRemember := toString st.nextRemoteId,
                    name := name, params := params, inactive := true, ready := false }],
           frames := st.frames ++ [SubFrame.sub (toString st.nextRemoteId) name params],
           nextLocalId := st.nextLocalId + 1,
           nextRemoteId := st.nextRemoteId + 1 },
          toString st.nextLocalId) := by
    unfold meteorSubscribe
    rw [h1]
    simp only [ddpSub, Bool.false_eq_true, if_false]
    rw [hsetA]
  have hfind2 : findExistingInactive
      (st.subscriptions
        ++ [{ id := toString st.nextLocalId, subIdRemember := toString st.nextRemoteId,
              name := name, params := params, inactive := true, ready := false }])
      name params = some (toString st.nextLocalId) := by
    rw [findExistingInactive_append_single]
    exact if_pos ⟨rfl, rfl, rfl⟩
  have hsetB : setInactive
      (st.subscriptions
        ++ [{ id := toString st.nextLocalId, subIdRemember := toString st.nextRemoteId,
              name := name, params := params, inactive := true, ready := false }])
      (toString st.nextLocalId) false
      = st.subscriptions
        ++ [{ id := toString st.nextLocalId, subIdRemember := toString st.nextRemoteId,
              name := name, params := params, inactive := false, ready := false }] := by
    rw [setInactive_append, setInactive_of_not_mem _ _ _ h2,
      setInactive_singleton_self
        { id := toString st.nextLocalId, subIdRemember := toString st.nextRemoteId,
          name := name, params := params, inactive := true, ready := false }]
  have hsecondT : meteorSubscribe true (meteorSubscribe false st name params).1 name params
      = ({ subscriptions :=
            st.subscriptions
              ++ [{ id := toString st.nextLocalId, subIdRemember := toString st.nextRemoteId,
                    name := name, params := params, inactive := false, ready := false }],
           frames := st.frames ++ [SubFrame.sub (toString st.nextRemoteId) name params],
           nextLocalId := st.nextLocalId + 1,
           nextRemoteId := st.nextRemoteId + 1 },
          toString st.nextLocalId) := by
    rw [hfirst]
    unfold meteorSubscribe
    rw [hfind2]
    simp only [if_pos]
    rw [hsetB]
  have hsecondF : meteorSubscribe false (meteorSubscribe false st name params).1 name params
      = ({ subscriptions :=
            st.subscriptions
              ++ [{ id := toString st.nextLocalId, subIdRemember := toString st.nextRemoteId,
                    name := name, params := params, inactive := true, ready := false }],
           frames := st.frames ++ [SubFrame.sub (toString st.nextRemoteId) name params],
           nextLocalId := st.nextLocalId + 1,
           nextRemoteId := st.nextRemoteId + 1 },
          toString st.nextLocalId) := by
    rw [hfirst]
    unfold meteorSubscribe
    rw [hfind2]
    simp only [Bool.false_eq_true, if_false]
    rw [hsetB, hsetA]
  rw [hfirst] at hsecondT hsecondF ⊢
  rw [hsecondT, hsecondF]
  exact ⟨rfl, rfl, rfl, rfl, rfl, rfl, rfl, rfl⟩

/-- Witness for C10 starting from an empty subscription map. -/
theorem subscribe_nonreactive_inactive_reuse_witness :
    (findExistingInactive (([] : List (SubRecord String))) "chats" "p" = none)
    ∧ (meteorSubscribe false
        (⟨[], [], 0, 0⟩ : SubsState String) "chats" "p").2 = toString (0 : Nat) :=
  ⟨by decide,
    (subscribe_nonreactive_inactive_reuse (⟨[], [], 0, 0⟩ : SubsState String) "chats" "p"
      (by decide) (by decide)).1⟩

end MeteorRN
